import Mathlib

/-
  Verification development for the meeting-summarizer repository.

  The repository has two Python scripts: streamlit_app.py (interactive app)
  and meeting_summarizer.py (CLI variant).  The functions with contractual
  behaviour are transcribe_audio, generate_summary and download_output in
  streamlit_app.py, and the straight-line pipeline of meeting_summarizer.py.

  The embedding below is a shallow one: every external effect (filesystem,
  the ffmpeg probe subprocess, the whisper engine, the gemini engine,
  unlink) is an oracle carried in an environment record, and each modelled
  function returns its result together with a trace of the effects it
  performed.  Error objects are modelled as a Python-exception kind plus
  its message string, because the source classifies errors by substring
  tests on messages.
-/

namespace MeetingSummarizer

/-- Boolean test that a list is an initial segment of another list. -/
def startsWithB : List Char → List Char → Bool
  | [], _ => true
  | _ :: _, [] => false
  | a :: as, b :: bs => a = b && startsWithB as bs

/-- Boolean substring test on character lists, scanning every suffix. -/
def hasSubL (needle : List Char) : List Char → Bool
  | [] => needle.isEmpty
  | b :: bs => startsWithB needle (b :: bs) || hasSubL needle bs

/-- Substring test on strings; models the Python expression `sub in s`. -/
def hasSub (needle hay : String) : Bool :=
  hasSubL needle.data hay.data

/-- Number of character positions of hay at which needle occurs. -/
def countOccur (needle : List Char) : List Char → Nat
  | [] => if needle.isEmpty then 1 else 0
  | b :: bs => (if startsWithB needle (b :: bs) then 1 else 0) + countOccur needle bs

/-- ASCII whitespace, the characters removed by the Python str.strip call
on engine output (the engine emits ASCII-spaced text). -/
def isSpaceC (c : Char) : Bool :=
  c = ' ' || c = '\t' || c = '\n' || c = '\r' || c = '\x0b' || c = '\x0c'

/-- Python str.strip: drop leading and trailing whitespace. -/
def pyStrip (s : String) : String :=
  String.mk (((s.data.dropWhile isSpaceC).reverse.dropWhile isSpaceC).reverse)

/-- An uploaded audio stream: filename, byte contents, and the current
read position of the stream (streamlit hands the adapter a file object
whose position depends on what the caller did with it before). -/
structure AudioFile where
  name : String
  bytes : List Nat
  pos : Nat
deriving DecidableEq, Repr

/-- file.seek(p): set the read position. -/
def AudioFile.seek (f : AudioFile) (p : Nat) : AudioFile :=
  { f with pos := p }

/-- file.read(): return everything from the current position and move the
position to the end. -/
def AudioFile.read (f : AudioFile) : List Nat × AudioFile :=
  (f.bytes.drop f.pos, { f with pos := f.bytes.length })

/-- Decidable equality for Except values, needed to evaluate the
concrete runs appearing in counterexamples and witnesses. -/
instance {ε α : Type} [DecidableEq ε] [DecidableEq α] : DecidableEq (Except ε α) :=
  fun x y =>
    match x, y with
    | .ok a, .ok b =>
      if h : a = b then .isTrue (by rw [h]) else .isFalse (fun hh => h (Except.ok.inj hh))
    | .error a, .error b =>
      if h : a = b then .isTrue (by rw [h]) else .isFalse (fun hh => h (Except.error.inj hh))
    | .ok _, .error _ => .isFalse (fun hh => Except.noConfusion hh)
    | .error _, .ok _ => .isFalse (fun hh => Except.noConfusion hh)

/-- The Python exception kinds raised inside transcribe_audio, each with
its message string. -/
inductive PyErr where
  | valueError : String → PyErr
  | fileNotFound : String → PyErr
  | runtimeError : String → PyErr
  | exception : String → PyErr
deriving DecidableEq, Repr

/-- str(e): the message carried by an exception. -/
def PyErr.msg : PyErr → String
  | .valueError m => m
  | .fileNotFound m => m
  | .runtimeError m => m
  | .exception m => m

/-- Oracle environment for one call of transcribe_audio.  Each field is
the outcome of one external effect the source performs. -/
structure Env where
  /-- base name chosen by NamedTemporaryFile; the suffix is appended. -/
  tmpBase : String
  /-- os.path.exists on the temporary file right after writing it. -/
  tmpPersists : Bool
  /-- os.path.getsize on the temporary file. -/
  tmpSize : Nat
  /-- the `ffmpeg -version` subprocess does not raise FileNotFoundError. -/
  ffmpegPresent : Bool
  /-- the `ffmpeg -version` subprocess exits with status zero. -/
  ffmpegWorks : Bool
  /-- the decode-and-discard probe run: none when it exits zero, otherwise
  the message of the CalledProcessError it raises. -/
  decodeErr : Option String
  /-- first model.transcribe call: the text field, or the message of the
  exception the engine raises. -/
  whisper1 : Except String String
  /-- the retried model.transcribe call with device forced to cpu. -/
  whisper2 : Except String String
  /-- os.unlink of the temporary file succeeds. -/
  unlinkOk : Bool
deriving DecidableEq, Repr

/-- Result and trace of the inner transcription block
(streamlit_app.py lines 100 to 124). -/
structure InnerOut where
  result : Except PyErr String
  /-- number of model.transcribe invocations made by the block. -/
  calls : Nat
  /-- a retry forcing device cpu happened. -/
  cpuForced : Bool
deriving DecidableEq, Repr

/-- The inner `except Exception as e` handler (lines 113 to 124):
a tensor-reshape message is reclassified as an unsupported-format
ValueError, a CUDA message triggers one retry on cpu, everything else is
wrapped as a generic whisper error.  The calls field counts only the
extra invocation made by the handler itself. -/
def innerHandle (env : Env) (e : PyErr) : InnerOut :=
  if hasSub "reshape tensor" (PyErr.msg e) then
    { result := .error (.valueError "Audio file appears to be corrupted or in an unsupported format. Try converting to WAV format first."),
      calls := 0, cpuForced := false }
  else if hasSub "CUDA" (PyErr.msg e) then
    match env.whisper2 with
    | .ok txt =>
      let t := pyStrip txt
      if t = "" then
        { result := .error (.valueError "No speech detected in the audio file"),
          calls := 1, cpuForced := true }
      else
        { result := .ok t, calls := 1, cpuForced := true }
    | .error m =>
      { result := .error (.exception m), calls := 1, cpuForced := true }
  else
    { result := .error (.exception ("Whisper transcription error: " ++ PyErr.msg e)),
      calls := 0, cpuForced := false }

/-- The inner try block (lines 100 to 124): first model.transcribe call,
strip, emptiness and length-3 checks; every exception raised inside the
block, including the two ValueErrors it raises itself, lands in
innerHandle. -/
def innerTranscribe (env : Env) : InnerOut :=
  match env.whisper1 with
  | .ok txt =>
    let t := pyStrip txt
    if t = "" then
      let h := innerHandle env (.valueError "No speech detected in the audio file")
      { h with calls := h.calls + 1 }
    else if t.length < 3 then
      let h := innerHandle env (.valueError "Transcript is too short. Audio may not contain clear speech.")
      { h with calls := h.calls + 1 }
    else
      { result := .ok t, calls := 1, cpuForced := false }
  | .error m =>
    let h := innerHandle env (.exception m)
    { h with calls := h.calls + 1 }

/-- Result and trace of the body of transcribe_audio before the outer
except and finally clauses. -/
structure BodyOut where
  result : Except PyErr String
  /-- the NamedTemporaryFile block completed, so tmp_file_path is bound. -/
  tmpWritten : Bool
  /-- at least one ffmpeg subprocess was launched. -/
  probeRun : Bool
  calls : Nat
  cpuForced : Bool
deriving DecidableEq, Repr

/-- os.path.splitext extension for a basename: everything from the last
dot on, except that a basename consisting of leading dots only has no
extension. -/
def lastDotIdx : List Char → Option Nat
  | [] => none
  | c :: cs =>
    match lastDotIdx cs with
    | some i => some (i + 1)
    | none => if c = '.' then some 0 else none

/-- Extension part of os.path.splitext for a basename. -/
def splitextExt (name : String) : String :=
  match lastDotIdx name.data with
  | none => ""
  | some i =>
    if (name.data.take i).all (fun c => c = '.') then ""
    else String.mk (name.data.drop i)

/-- Lines 66 to 68: pick the temporary-file suffix from the filename,
defaulting to .wav when the name or the extension is empty. -/
def fileExt (name : String) : String :=
  let e := if name = "" then ".wav" else splitextExt name
  if e = "" then ".wav" else e

/-- The try body of transcribe_audio (lines 50 to 124): read the stream
from position zero, validate size, persist to a temporary file, verify the
file, run the ffmpeg presence and decode probes, then transcribe. -/
def transcribeBody (env : Env) (f : AudioFile) : BodyOut :=
  let f0 := AudioFile.seek f 0
  let data := (AudioFile.read f0).1
  if data.length = 0 then
    { result := .error (.valueError "Audio file is empty"),
      tmpWritten := false, probeRun := false, calls := 0, cpuForced := false }
  else if data.length < 1024 then
    { result := .error (.valueError "Audio file is too small (less than 1KB). Please check if the file is valid."),
      tmpWritten := false, probeRun := false, calls := 0, cpuForced := false }
  else
    let tmpPath := env.tmpBase ++ fileExt f.name
    if env.tmpPersists = false then
      { result := .error (.fileNotFound ("Temporary file not created: " ++ tmpPath)),
        tmpWritten := true, probeRun := false, calls := 0, cpuForced := false }
    else if env.tmpSize = 0 then
      { result := .error (.valueError "Temporary file is empty"),
        tmpWritten := true, probeRun := false, calls := 0, cpuForced := false }
    else if env.ffmpegPresent = false then
      { result := .error (.fileNotFound "FFmpeg not found. Please ensure FFmpeg is installed and in your PATH."),
        tmpWritten := true, probeRun := true, calls := 0, cpuForced := false }
    else if env.ffmpegWorks = false then
      { result := .error (.runtimeError "FFmpeg is installed but not working properly."),
        tmpWritten := true, probeRun := true, calls := 0, cpuForced := false }
    else
      match env.decodeErr with
      | some m =>
        { result := .error (.valueError ("Invalid audio file format or corrupted file. FFmpeg error: " ++ m)),
          tmpWritten := true, probeRun := true, calls := 0, cpuForced := false }
      | none =>
        let i := innerTranscribe env
        { result := i.result, tmpWritten := true, probeRun := true,
          calls := i.calls, cpuForced := i.cpuForced }

/-- Full result and trace of one transcribe_audio call. -/
structure RunOut where
  result : Except PyErr String
  tmpWritten : Bool
  probeRun : Bool
  calls : Nat
  cpuForced : Bool
  /-- the finally clause attempted os.unlink on the temporary file. -/
  unlinkTried : Bool
  /-- the temporary file is still on disk when the call returns. -/
  tmpLeft : Bool
deriving DecidableEq, Repr

/-- transcribe_audio (lines 48 to 138): run the body, re-wrap any escaping
exception in the outer handler (lines 126 to 131), then perform the
best-effort cleanup of the finally clause (lines 132 to 138), whose own
failure is swallowed. -/
def transcribe_audio (env : Env) (f : AudioFile) : RunOut :=
  let b := transcribeBody env f
  let wrapped : Except PyErr String :=
    match b.result with
    | .ok s => .ok s
    | .error e =>
      if hasSub "reshape tensor" (PyErr.msg e) then
        .error (.exception "Audio file processing failed. The file may be corrupted, empty, or in an unsupported format. Please try:\n1. Converting to WAV format\n2. Checking if the file contains actual audio content\n3. Using a different audio file")
      else
        .error (.exception ("Transcription failed: " ++ PyErr.msg e))
  let onDisk := b.tmpWritten && env.tmpPersists
  { result := wrapped, tmpWritten := b.tmpWritten, probeRun := b.probeRun,
    calls := b.calls, cpuForced := b.cpuForced,
    unlinkTried := onDisk,
    tmpLeft := onDisk && !env.unlinkOk }

/-- Oracle environment for generate_summary: the credential read from the
process environment and the gemini engine, which sees the full prompt. -/
structure SummEnv where
  apiKey : Option String
  gemini : String → Except String String

/-- Python truthiness of the credential: present and not the empty
string. -/
def keyPresent (senv : SummEnv) : Bool :=
  match senv.apiKey with
  | none => false
  | some k => !(k = "")

/-- The prompt template of generate_summary (lines 146 to 148). -/
def promptFor (transcript : String) : String :=
  "You are an expert note taker. Using the following transcript of a meeting, generate a bullet point formatted summary. Do not speculate, use details from the given transcript alone.\n\nTranscript: [" ++ transcript ++ "]"

/-- generate_summary (lines 140 to 154): a missing credential degrades to
a fixed error string, and an exception from generate_content is caught and
converted into an inline error string with a fixed introduction. -/
def generate_summary (senv : SummEnv) (transcript : String) : String :=
  if keyPresent senv = false then
    "Error: Could not load Gemini model"
  else
    match senv.gemini (promptFor transcript) with
    | .ok text => text
    | .error m => "Error generating summary: " ++ m

/-- The fixed separator line of sixty equals signs. -/
def eqLine : String := String.mk (List.replicate 60 '=')

/-- The fixed separator line of thirty hyphens. -/
def dashLine : String := String.mk (List.replicate 30 '-')

/-- download_output (lines 156 to 170).  The timestamp, impure in the
source (datetime.now), is the first explicit parameter here; the filename
parameter is kept exactly as in the source signature. -/
def download_output (now transcript summary filename : String) : String :=
  "Meeting Transcript and Summary\nGenerated on: " ++ now ++ "\n" ++ eqLine
    ++ "\n\nORIGINAL TRANSCRIPT:\n" ++ dashLine ++ "\n" ++ transcript
    ++ "\n\nAI-GENERATED SUMMARY:\n" ++ dashLine ++ "\n" ++ summary ++ "\n"

/-- Terminal states of the interactive pipeline (lines 218 to 247): every
exception from transcribe_audio reaches the single per-input handler,
while a successful transcription always proceeds to summarization and the
assembled results. -/
inductive PipeOutcome where
  | failed : String → PipeOutcome
  | assembled : String → String → PipeOutcome
deriving DecidableEq, Repr

/-- The process-button driver of streamlit_app.py, reduced to its control
flow: transcription failure reaches the per-input error handler,
transcription success always reaches the assembled terminal because
generate_summary never raises. -/
def runPipeline (env : Env) (senv : SummEnv) (f : AudioFile) : PipeOutcome :=
  match (transcribe_audio env f).result with
  | .error e => .failed (PyErr.msg e)
  | .ok t => .assembled t (generate_summary senv t)

/-- Oracle environment for one run of the CLI script
meeting_summarizer.py. -/
structure CliEnv where
  whisperCli : Except String String
  apiKey : Option String
  geminiCli : String → Except String String

/-- Python truthiness of the credential in the CLI script. -/
def cliKeyPresent (cenv : CliEnv) : Bool :=
  match cenv.apiKey with
  | none => false
  | some k => !(k = "")

/-- The prompt template of the CLI script (lines 52 to 54). -/
def cliPrompt (transcript : String) : String :=
  "You are an expert note taker, using the following transcript of a meeting generate a bullet point formatted summary. Do not speculate, use details from the given transcript alone. \n\nTranscript: [" ++ transcript ++ "]"

/-- Steps of the CLI script, in the order the source performs them. -/
inductive CliEvent where
  | loadedModel
  | transcribed
  | wroteTranscript
  | loadedGemini
  | summarized
  | wroteOutput
deriving DecidableEq, Repr

/-- meeting_summarizer.py as a straight-line run: load the model,
transcribe (an engine exception crashes the script), write the transcript
file, only then check the credential (line 42), load gemini, summarize
(an engine exception crashes the script), write the combined output. -/
def cliRun (cenv : CliEnv) : Except PyErr Unit × List CliEvent :=
  let ev0 := [CliEvent.loadedModel]
  match cenv.whisperCli with
  | .error m => (.error (.exception m), ev0)
  | .ok transcriptText =>
    let ev1 := ev0 ++ [CliEvent.transcribed, CliEvent.wroteTranscript]
    if cliKeyPresent cenv = false then
      (.error (.valueError "GEMINI_API_KEY not found in environment variables"), ev1)
    else
      let ev2 := ev1 ++ [CliEvent.loadedGemini]
      match cenv.geminiCli (cliPrompt transcriptText) with
      | .error m => (.error (.exception m), ev2)
      | .ok _ => (.ok (), ev2 ++ [CliEvent.summarized, CliEvent.wroteOutput])

/-- A first-call engine error that the adapter classifies as the
accelerator kind: its message mentions CUDA and is not already claimed by
the tensor-reshape classification, which the handler tests first. -/
def cudaRetry (w : Except String String) : Bool :=
  match w with
  | .ok _ => false
  | .error m => !(hasSub "reshape tensor" m) && hasSub "CUDA" m

/-- The run gets past validation, the temporary file and both probe
steps, and hands the temporary file to the speech engine. -/
def ReachesInner (env : Env) (f : AudioFile) : Prop :=
  f.bytes.length ≠ 0 ∧ ¬ f.bytes.length < 1024 ∧ env.tmpPersists = true ∧
    env.tmpSize ≠ 0 ∧ env.ffmpegPresent = true ∧ env.ffmpegWorks = true ∧
    env.decodeErr = none

set_option maxRecDepth 100000

/-- Fixture: an oracle environment in which every external effect
succeeds and the engine hears clear speech. -/
def okEnv : Env :=
  { tmpBase := "/tmp/t", tmpPersists := true, tmpSize := 4096,
    ffmpegPresent := true, ffmpegWorks := true, decodeErr := none,
    whisper1 := .ok " hello there ", whisper2 := .ok "x", unlinkOk := true }

/-- Fixture: a plausibly valid blob of exactly 1024 zero bytes. -/
def okFile : AudioFile := { name := "a.mp3", bytes := List.replicate 1024 0, pos := 0 }

/-- Fixture: an empty upload. -/
def emptyFile : AudioFile := { name := "a.mp3", bytes := [], pos := 0 }

/-- Fixture: a run whose first engine call dies with a CUDA message and
whose cpu retry hears two characters of speech. -/
def cudaEnv : Env :=
  { okEnv with whisper1 := .error "CUDA out of memory", whisper2 := .ok "ab" }

/-- Fixture: a host without the ffmpeg binary. -/
def noFfmpegEnv : Env := { okEnv with ffmpegPresent := false }

/-- Fixture: a summarization environment with a credential and a healthy
engine. -/
def sumOkEnv : SummEnv := { apiKey := some "k", gemini := fun _ => .ok "sum" }

/-- Fixture: a summarization environment with a credential whose engine
raises. -/
def sumFailEnv : SummEnv := { apiKey := some "k", gemini := fun _ => .error "boom" }

/-- Fixture: a CLI run with no credential in the environment and a
healthy speech engine. -/
def cliNoKeyEnv : CliEnv :=
  { whisperCli := .ok "hello world", apiKey := none, geminiCli := fun _ => .ok "sum" }

/-- String append acts as list append on the underlying characters. -/
theorem strDataAppend (s t : String) : (s ++ t).data = s.data ++ t.data := rfl

/-- Changing the unlink oracle does not change the body of the call. -/
theorem body_unlink_irrel (env : Env) (f : AudioFile) (b : Bool) :
    transcribeBody { env with unlinkOk := b } f = transcribeBody env f := by
  cases env
  rfl

/-- C1: for every input blob, the validator size checks short-circuit in
order before any effect: a blob of length zero fails as empty input, a
shorter-than-1024-byte blob fails as too-small input, and in both cases no
temporary file is written, no ffmpeg probe is launched and the speech
model is never invoked. -/
theorem validator_rejects_small_before_any_effect (env : Env) (f : AudioFile)
    (h : f.bytes.length < 1024) :
    (transcribe_audio env f).tmpWritten = false ∧
    (transcribe_audio env f).probeRun = false ∧
    (transcribe_audio env f).calls = 0 ∧
    (transcribe_audio env f).result = .error (.exception ("Transcription failed: " ++
      (if f.bytes.length = 0 then "Audio file is empty"
       else "Audio file is too small (less than 1KB). Please check if the file is valid."))) := by
  have e1 : hasSub "reshape tensor" "Audio file is empty" = false := by decide
  have e2 : hasSub "reshape tensor"
      "Audio file is too small (less than 1KB). Please check if the file is valid." = false := by
    decide
  by_cases h0 : f.bytes.length = 0
  · simp [transcribe_audio, transcribeBody, AudioFile.seek, AudioFile.read, PyErr.msg,
      h0, e1]
  · simp [transcribe_audio, transcribeBody, AudioFile.seek, AudioFile.read, PyErr.msg,
      h0, h, e2]

/-- C1 witness: the empty blob satisfies the size hypothesis and is
rejected before any effect. -/
theorem validator_rejects_small_before_any_effect_at_empty :
    emptyFile.bytes.length < 1024 ∧
    ((transcribe_audio okEnv emptyFile).tmpWritten = false ∧
     (transcribe_audio okEnv emptyFile).probeRun = false ∧
     (transcribe_audio okEnv emptyFile).calls = 0 ∧
     (transcribe_audio okEnv emptyFile).result = .error (.exception ("Transcription failed: " ++
       (if emptyFile.bytes.length = 0 then "Audio file is empty"
        else "Audio file is too small (less than 1KB). Please check if the file is valid.")))) :=
  ⟨by decide, validator_rejects_small_before_any_effect okEnv emptyFile (by decide)⟩

/-- C4: on every exit path the cleanup of the temporary file is attempted
exactly when the file was created and is on disk, the file is gone
whenever the unlink succeeds, and the outcome of the unlink never changes
the primary result or error of the call. -/
theorem cleanup_on_every_path_never_masks_result (env : Env) (f : AudioFile) (b : Bool) :
    (transcribe_audio env f).unlinkTried
      = ((transcribe_audio env f).tmpWritten && env.tmpPersists) ∧
    (transcribe_audio env f).tmpLeft
      = ((transcribe_audio env f).tmpWritten && env.tmpPersists && !env.unlinkOk) ∧
    (transcribe_audio { env with unlinkOk := b } f).result
      = (transcribe_audio env f).result := by
  refine ⟨rfl, ?_, ?_⟩
  · simp only [transcribe_audio, Bool.and_assoc]
  · simp only [transcribe_audio, body_unlink_irrel]

/-- C10: the adapter rewinds the stream before reading, so two streams
with the same filename and the same byte contents but different initial
read positions produce identical results and identical effect traces. -/
theorem transcription_independent_of_stream_position (env : Env) (f1 f2 : AudioFile)
    (hn : f1.name = f2.name) (hb : f1.bytes = f2.bytes) :
    transcribe_audio env f1 = transcribe_audio env f2 := by
  cases f1
  cases f2
  simp only at hn hb
  subst hn
  subst hb
  rfl

/-- C10 witness: the same bytes read from position zero and from
position five give the same run. -/
theorem transcription_independent_of_stream_position_at_five :
    ({ name := "a.mp3", bytes := List.replicate 1024 0, pos := 0 } : AudioFile).name
      = ({ name := "a.mp3", bytes := List.replicate 1024 0, pos := 5 } : AudioFile).name ∧
    ({ name := "a.mp3", bytes := List.replicate 1024 0, pos := 0 } : AudioFile).bytes
      = ({ name := "a.mp3", bytes := List.replicate 1024 0, pos := 5 } : AudioFile).bytes ∧
    transcribe_audio okEnv { name := "a.mp3", bytes := List.replicate 1024 0, pos := 0 }
      = transcribe_audio okEnv { name := "a.mp3", bytes := List.replicate 1024 0, pos := 5 } :=
  ⟨rfl, rfl,
    transcription_independent_of_stream_position okEnv
      { name := "a.mp3", bytes := List.replicate 1024 0, pos := 0 }
      { name := "a.mp3", bytes := List.replicate 1024 0, pos := 5 } rfl rfl⟩

/-- The two classification substrings do not occur in the no-speech
message. -/
theorem noSpeechMsgPlain :
    hasSub "reshape tensor" "No speech detected in the audio file" = false ∧
    hasSub "CUDA" "No speech detected in the audio file" = false := by decide

/-- The two classification substrings do not occur in the too-short
message. -/
theorem tooShortMsgPlain :
    hasSub "reshape tensor" "Transcript is too short. Audio may not contain clear speech." = false ∧
    hasSub "CUDA" "Transcript is too short. Audio may not contain clear speech." = false := by
  decide

/-- When the run reaches the transcription stage, the whole body outcome
is the outcome of that stage. -/
theorem body_eq_of_reaches (env : Env) (f : AudioFile) (h : ReachesInner env f) :
    transcribeBody env f =
      { result := (innerTranscribe env).result, tmpWritten := true, probeRun := true,
        calls := (innerTranscribe env).calls, cpuForced := (innerTranscribe env).cpuForced } := by
  obtain ⟨r0, r1, r2, r3, r4, r5, r6⟩ := h
  simp [transcribeBody, AudioFile.seek, AudioFile.read, r0, r1, r2, r3, r4, r5, r6]

/-- The transcription stage makes a second engine call, forcing the cpu
path, exactly when the first call failed with an accelerator-classified
message. -/
theorem inner_calls (env : Env) :
    (innerTranscribe env).calls = (if cudaRetry env.whisper1 then 2 else 1) ∧
    (innerTranscribe env).cpuForced = cudaRetry env.whisper1 := by
  unfold innerTranscribe cudaRetry
  rcases env.whisper1 with m | txt
  · simp only [innerHandle, PyErr.msg]
    by_cases hr : hasSub "reshape tensor" m = true
    · simp [hr]
    · have hr' : hasSub "reshape tensor" m = false := by simpa using hr
      by_cases hc : hasSub "CUDA" m = true
      · rcases env.whisper2 with m2 | t2
        · simp [hr', hc]
        · by_cases he2 : pyStrip t2 = ""
          · simp [hr', hc, he2]
          · simp [hr', hc, he2]
      · have hc' : hasSub "CUDA" m = false := by simpa using hc
        simp [hr', hc']
  · simp only [innerHandle, PyErr.msg, noSpeechMsgPlain.1, noSpeechMsgPlain.2,
      tooShortMsgPlain.1, tooShortMsgPlain.2]
    split
    · simp
    · split <;> simp

/-- C7: once the pipeline reaches the transcription stage, the engine is
invoked a second time, with the cpu execution path forced, exactly when
the first invocation raised an error whose message the adapter classifies
as the accelerator kind; every other first outcome, success or any other
error kind, leaves the call count at one. -/
theorem cuda_error_retries_once_on_cpu (env : Env) (f : AudioFile)
    (hlen : 1024 ≤ f.bytes.length) (h1 : env.tmpPersists = true) (h2 : env.tmpSize ≠ 0)
    (h3 : env.ffmpegPresent = true) (h4 : env.ffmpegWorks = true) (h5 : env.decodeErr = none) :
    (transcribe_audio env f).calls = (if cudaRetry env.whisper1 then 2 else 1) ∧
    (transcribe_audio env f).cpuForced = cudaRetry env.whisper1 := by
  have hb := body_eq_of_reaches env f ⟨by omega, by omega, h1, h2, h3, h4, h5⟩
  have hi := inner_calls env
  constructor
  · show (transcribeBody env f).calls = _
    rw [hb]
    exact hi.1
  · show (transcribeBody env f).cpuForced = _
    rw [hb]
    exact hi.2

/-- C7 witness: a run whose first engine call raises a CUDA message
reaches two engine invocations with the cpu path forced. -/
theorem cuda_error_retries_once_on_cpu_at_cudaEnv :
    1024 ≤ okFile.bytes.length ∧ cudaEnv.tmpPersists = true ∧ cudaEnv.tmpSize ≠ 0 ∧
    cudaEnv.ffmpegPresent = true ∧ cudaEnv.ffmpegWorks = true ∧ cudaEnv.decodeErr = none ∧
    ((transcribe_audio cudaEnv okFile).calls = (if cudaRetry cudaEnv.whisper1 then 2 else 1) ∧
     (transcribe_audio cudaEnv okFile).cpuForced = cudaRetry cudaEnv.whisper1) :=
  ⟨by decide, rfl, by decide, rfl, rfl, rfl,
    cuda_error_retries_once_on_cpu cudaEnv okFile (by decide) rfl (by decide) rfl rfl rfl⟩

/-- A successful body means the validation and probing stages all passed
and the result and retry flag are the ones of the transcription stage. -/
theorem body_ok_via_inner (env : Env) (f : AudioFile) (t : String)
    (h : (transcribeBody env f).result = .ok t) :
    (innerTranscribe env).result = .ok t ∧
    (transcribeBody env f).cpuForced = (innerTranscribe env).cpuForced := by
  by_cases c0 : f.bytes.length = 0
  · have : (transcribeBody env f).result = .error (.valueError "Audio file is empty") := by
      simp [transcribeBody, AudioFile.seek, AudioFile.read, c0]
    rw [this] at h
    simp at h
  by_cases c1 : f.bytes.length < 1024
  · have : (transcribeBody env f).result = .error (.valueError
        "Audio file is too small (less than 1KB). Please check if the file is valid.") := by
      simp [transcribeBody, AudioFile.seek, AudioFile.read, c0, c1]
    rw [this] at h
    simp at h
  by_cases c2 : env.tmpPersists = false
  · have : (transcribeBody env f).result = .error (.fileNotFound
        ("Temporary file not created: " ++ (env.tmpBase ++ fileExt f.name))) := by
      simp [transcribeBody, AudioFile.seek, AudioFile.read, c0, c1, c2]
    rw [this] at h
    simp at h
  by_cases c3 : env.tmpSize = 0
  · have : (transcribeBody env f).result = .error (.valueError "Temporary file is empty") := by
      simp [transcribeBody, AudioFile.seek, AudioFile.read, c0, c1, c2, c3]
    rw [this] at h
    simp at h
  by_cases c4 : env.ffmpegPresent = false
  · have : (transcribeBody env f).result = .error (.fileNotFound
        "FFmpeg not found. Please ensure FFmpeg is installed and in your PATH.") := by
      simp [transcribeBody, AudioFile.seek, AudioFile.read, c0, c1, c2, c3, c4]
    rw [this] at h
    simp at h
  by_cases c5 : env.ffmpegWorks = false
  · have : (transcribeBody env f).result = .error (.runtimeError
        "FFmpeg is installed but not working properly.") := by
      simp [transcribeBody, AudioFile.seek, AudioFile.read, c0, c1, c2, c3, c4, c5]
    rw [this] at h
    simp at h
  rcases hd : env.decodeErr with _ | m
  · have hb := body_eq_of_reaches env f
      ⟨c0, c1, by simpa using c2, c3, by simpa using c4, by simpa using c5, hd⟩
    rw [hb] at h
    rw [hb]
    exact ⟨h, rfl⟩
  · have : (transcribeBody env f).result = .error (.valueError
        ("Invalid audio file format or corrupted file. FFmpeg error: " ++ m)) := by
      simp [transcribeBody, AudioFile.seek, AudioFile.read, c0, c1, c2, c3, c4, c5, hd]
    rw [this] at h
    simp at h

/-- A successful transcription stage always returns stripped, non-empty
text: on the primary path the text of the first engine call, at least
three characters long; on the retried path the text of the cpu call, with
no lower bound on length beyond non-emptiness. -/
theorem inner_ok_shape (env : Env) (t : String)
    (h : (innerTranscribe env).result = .ok t) :
    t ≠ "" ∧
    ((innerTranscribe env).cpuForced = false →
      ∃ raw, env.whisper1 = .ok raw ∧ t = pyStrip raw ∧ 3 ≤ t.length) ∧
    ((innerTranscribe env).cpuForced = true →
      ∃ raw, env.whisper2 = .ok raw ∧ t = pyStrip raw) := by
  unfold innerTranscribe at h ⊢
  rcases hw : env.whisper1 with m | txt
  · rw [hw] at h
    simp only [innerHandle, PyErr.msg] at h ⊢
    by_cases hr : hasSub "reshape tensor" m = true
    · simp [hr] at h
    · have hr' : hasSub "reshape tensor" m = false := by simpa using hr
      by_cases hc : hasSub "CUDA" m = true
      · rcases hw2 : env.whisper2 with m2 | t2
        · simp [hr', hc, hw2] at h
        · rw [hw2] at h
          by_cases he2 : pyStrip t2 = ""
          · simp [hr', hc, he2] at h
          · simp only [hr', hc, he2, Bool.false_eq_true, if_false, ite_false, if_true,
              ite_true] at h ⊢
            simp only [Except.ok.injEq] at h
            subst h
            refine ⟨he2, fun hf => ?_, fun _ => ⟨t2, rfl, rfl⟩⟩
            simp at hf
      · have hc' : hasSub "CUDA" m = false := by simpa using hc
        simp [hr', hc'] at h
  · rw [hw] at h
    by_cases he : pyStrip txt = ""
    · simp [he, innerHandle, PyErr.msg, noSpeechMsgPlain.1, noSpeechMsgPlain.2] at h
    · by_cases hl : (pyStrip txt).length < 3
      · simp [he, hl, innerHandle, PyErr.msg, tooShortMsgPlain.1, tooShortMsgPlain.2] at h
      · simp only [he, hl, if_false, ite_false] at h ⊢
        simp only [Except.ok.injEq] at h
        subst h
        refine ⟨he, fun _ => ⟨txt, rfl, rfl, by omega⟩, fun hcp => ?_⟩
        simp [he, hl] at hcp

/-- C2 amended: every successful result of the adapter is the engine
output whitespace-stripped and non-empty; on the primary path it is
additionally at least three characters long, but the accelerator-retry
path returns any non-empty stripped text, including text shorter than
three characters. -/
theorem success_transcript_stripped_nonempty (env : Env) (f : AudioFile) (t : String)
    (h : (transcribe_audio env f).result = .ok t) :
    t ≠ "" ∧
    ((transcribe_audio env f).cpuForced = false →
      ∃ raw, env.whisper1 = .ok raw ∧ t = pyStrip raw ∧ 3 ≤ t.length) ∧
    ((transcribe_audio env f).cpuForced = true →
      ∃ raw, env.whisper2 = .ok raw ∧ t = pyStrip raw) := by
  have hb : (transcribeBody env f).result = .ok t := by
    simp only [transcribe_audio] at h
    rcases hbr : (transcribeBody env f).result with s | e
    · rw [hbr] at h
      by_cases hms : hasSub "reshape tensor" (PyErr.msg s) = true
      · simp [hms] at h
      · simp [hms] at h
    · rw [hbr] at h
      simp_all
  have hcpu : (transcribe_audio env f).cpuForced = (transcribeBody env f).cpuForced := rfl
  obtain ⟨hi, hcp⟩ := body_ok_via_inner env f t hb
  obtain ⟨h1, h2, h3⟩ := inner_ok_shape env t hi
  refine ⟨h1, ?_, ?_⟩
  · rw [hcpu, hcp]
    exact h2
  · rw [hcpu, hcp]
    exact h3

/-- C2 witness for the amended claim: a normal run returns the stripped
non-empty text heard by the first engine call. -/
theorem success_transcript_stripped_nonempty_at_okEnv :
    (transcribe_audio okEnv okFile).result = .ok "hello there" ∧
    ("hello there" ≠ "" ∧
     ((transcribe_audio okEnv okFile).cpuForced = false →
       ∃ raw, okEnv.whisper1 = .ok raw ∧ "hello there" = pyStrip raw ∧
         3 ≤ ("hello there" : String).length) ∧
     ((transcribe_audio okEnv okFile).cpuForced = true →
       ∃ raw, okEnv.whisper2 = .ok raw ∧ "hello there" = pyStrip raw)) :=
  ⟨by decide, success_transcript_stripped_nonempty okEnv okFile "hello there" (by decide)⟩

/-- C2 counterexample: after a first engine failure with a CUDA message,
the retried path accepts a two-character transcript as a successful
result, so the three-character floor does not hold on every execution
path. -/
theorem cuda_retry_short_transcript_accepted :
    (transcribe_audio cudaEnv okFile).result = .ok "ab" ∧
    ¬ 3 ≤ ("ab" : String).length := by
  constructor
  · decide
  · decide

/-- The classification substring for unsupported formats does not occur
in the missing-ffmpeg message. -/
theorem ffmpegMsgPlain :
    hasSub "reshape tensor"
      "FFmpeg not found. Please ensure FFmpeg is installed and in your PATH." = false := by
  decide

/-- C3 amended: absence of the probing tool is detected with a distinct
message naming the missing dependency, but the adapter raises it through
the same generic per-input wrapper as every other transcription failure,
and the interactive pipeline reaches the same per-input failed terminal
instead of a distinct pipeline-aborting configuration error. -/
theorem ffmpeg_absence_distinct_message_same_channel (env : Env) (f : AudioFile)
    (senv : SummEnv)
    (hlen : 1024 ≤ f.bytes.length) (h1 : env.tmpPersists = true) (h2 : env.tmpSize ≠ 0)
    (h3 : env.ffmpegPresent = false) :
    (transcribe_audio env f).result = .error (.exception
      "Transcription failed: FFmpeg not found. Please ensure FFmpeg is installed and in your PATH.") ∧
    runPipeline env senv f = .failed
      "Transcription failed: FFmpeg not found. Please ensure FFmpeg is installed and in your PATH." := by
  have h0 : ¬ f.bytes.length = 0 := by omega
  have hs : ¬ f.bytes.length < 1024 := by omega
  have hres : (transcribeBody env f).result = .error (.fileNotFound
      "FFmpeg not found. Please ensure FFmpeg is installed and in your PATH.") := by
    simp [transcribeBody, AudioFile.seek, AudioFile.read, h0, hs, h1, h2, h3]
  have hA : (transcribe_audio env f).result = .error (.exception
      "Transcription failed: FFmpeg not found. Please ensure FFmpeg is installed and in your PATH.") := by
    simp only [transcribe_audio]
    rw [hres]
    decide
  refine ⟨hA, ?_⟩
  unfold runPipeline
  rw [hA]
  rfl

/-- C3 witness for the amended claim: a concrete host without the ffmpeg
binary produces the wrapped per-input failure. -/
theorem ffmpeg_absence_distinct_message_same_channel_at_noFfmpeg :
    1024 ≤ okFile.bytes.length ∧ noFfmpegEnv.tmpPersists = true ∧
    noFfmpegEnv.tmpSize ≠ 0 ∧ noFfmpegEnv.ffmpegPresent = false ∧
    ((transcribe_audio noFfmpegEnv okFile).result = .error (.exception
      "Transcription failed: FFmpeg not found. Please ensure FFmpeg is installed and in your PATH.") ∧
     runPipeline noFfmpegEnv sumOkEnv okFile = .failed
      "Transcription failed: FFmpeg not found. Please ensure FFmpeg is installed and in your PATH.") :=
  ⟨by decide, rfl, by decide, rfl,
    ffmpeg_absence_distinct_message_same_channel noFfmpegEnv okFile sumOkEnv
      (by decide) rfl (by decide) rfl⟩

/-- C3 counterexample: on a host without the probing tool the adapter
reports the condition through the per-input transcription-failed channel,
with the same wrapper prefix used for every per-file error, and the
pipeline reaches the ordinary per-input failed terminal, contradicting
the claim that the condition is not reported as a per-input transcription
error. -/
theorem ffmpeg_absence_reported_as_per_file_error :
    (transcribe_audio noFfmpegEnv okFile).result = .error (.exception
      "Transcription failed: FFmpeg not found. Please ensure FFmpeg is installed and in your PATH.") ∧
    runPipeline noFfmpegEnv sumOkEnv okFile = .failed
      "Transcription failed: FFmpeg not found. Please ensure FFmpeg is installed and in your PATH." ∧
    hasSub "Transcription failed: "
      "Transcription failed: FFmpeg not found. Please ensure FFmpeg is installed and in your PATH." = true := by
  refine ⟨by decide, ?_, by decide⟩
  unfold runPipeline
  rw [show (transcribe_audio noFfmpegEnv okFile).result = .error (.exception
      "Transcription failed: FFmpeg not found. Please ensure FFmpeg is installed and in your PATH.")
    from by decide]
  rfl

/-- C5: when the credential is present and the text-generation engine
raises, generate_summary returns the inline error string with the fixed
introduction and the engine message, and a run whose transcription
succeeded still reaches the assembled terminal carrying that string. -/
theorem gemini_failure_inlined_pipeline_assembled (env : Env) (senv : SummEnv)
    (f : AudioFile) (t m : String)
    (hk : keyPresent senv = true)
    (hg : senv.gemini (promptFor t) = .error m)
    (ht : (transcribe_audio env f).result = .ok t) :
    generate_summary senv t = "Error generating summary: " ++ m ∧
    runPipeline env senv f = .assembled t ("Error generating summary: " ++ m) := by
  have hsum : generate_summary senv t = "Error generating summary: " ++ m := by
    unfold generate_summary
    rw [hk, hg]
    simp
  refine ⟨hsum, ?_⟩
  unfold runPipeline
  rw [ht]
  show PipeOutcome.assembled t (generate_summary senv t) = _
  rw [hsum]

/-- C5 witness: a healthy transcription together with an engine that
raises the message boom assembles a report whose summary is the inline
error string. -/
theorem gemini_failure_inlined_pipeline_assembled_at_boom :
    keyPresent sumFailEnv = true ∧
    sumFailEnv.gemini (promptFor "hello there") = .error "boom" ∧
    (transcribe_audio okEnv okFile).result = .ok "hello there" ∧
    (generate_summary sumFailEnv "hello there" = "Error generating summary: " ++ "boom" ∧
     runPipeline okEnv sumFailEnv okFile
       = .assembled "hello there" ("Error generating summary: " ++ "boom")) :=
  ⟨by decide, rfl, by decide,
    gemini_failure_inlined_pipeline_assembled okEnv sumFailEnv okFile "hello there" "boom"
      (by decide) rfl (by decide)⟩

/-- C6 amended: a missing credential is fatal in the CLI script but is
detected only after transcription has completed and the transcript file
has been written, and it is not fatal at all in the web app, whose
summarization degrades to a fixed inline error string without ever
invoking the engine. -/
theorem missing_credential_checked_late (cenv : CliEnv) (t : String)
    (hk : cliKeyPresent cenv = false) (hw : cenv.whisperCli = .ok t) :
    (cliRun cenv).1 = .error (.valueError "GEMINI_API_KEY not found in environment variables") ∧
    (cliRun cenv).2 = [CliEvent.loadedModel, CliEvent.transcribed, CliEvent.wroteTranscript] ∧
    (∀ g g' : String → Except String String,
      generate_summary { apiKey := none, gemini := g } t
        = generate_summary { apiKey := none, gemini := g' } t) ∧
    (∀ g : String → Except String String,
      generate_summary { apiKey := none, gemini := g } t
        = "Error: Could not load Gemini model") := by
  unfold cliRun
  rw [hw]
  simp [hk, generate_summary, keyPresent]

/-- C6 witness for the amended claim: with no credential and a healthy
speech engine the CLI run transcribes, then dies on the credential check,
and the web summarizer degrades to the inline string. -/
theorem missing_credential_checked_late_at_noKey :
    cliKeyPresent cliNoKeyEnv = false ∧ cliNoKeyEnv.whisperCli = .ok "hello world" ∧
    ((cliRun cliNoKeyEnv).1
        = .error (.valueError "GEMINI_API_KEY not found in environment variables") ∧
     (cliRun cliNoKeyEnv).2
        = [CliEvent.loadedModel, CliEvent.transcribed, CliEvent.wroteTranscript] ∧
     (∀ g g' : String → Except String String,
       generate_summary { apiKey := none, gemini := g } "hello world"
         = generate_summary { apiKey := none, gemini := g' } "hello world") ∧
     (∀ g : String → Except String String,
       generate_summary { apiKey := none, gemini := g } "hello world"
         = "Error: Could not load Gemini model")) :=
  ⟨rfl, rfl, missing_credential_checked_late cliNoKeyEnv "hello world" rfl rfl⟩

/-- C6 counterexample: with the credential absent, the CLI run raises the
fatal configuration error only after the transcription and the transcript
file write have already happened, contradicting the claim that the error
is raised before any pipeline work begins. -/
theorem missing_credential_error_after_transcription :
    (cliRun cliNoKeyEnv).1
      = .error (.valueError "GEMINI_API_KEY not found in environment variables") ∧
    (cliRun cliNoKeyEnv).2
      = [CliEvent.loadedModel, CliEvent.transcribed, CliEvent.wroteTranscript] :=
  ⟨rfl, rfl⟩

/-- C8 amended: the assembled report is exactly the fixed framing with
the transcript and the summary spliced in verbatim, each of them framed
by its fixed section header; an occurrence count of exactly one is not
guaranteed in general because the transcript or summary text can also
occur inside the other section or the fixed framing. -/
theorem report_contains_transcript_summary_verbatim (now T S fn : String) :
    (download_output now T S fn).data
      = ("Meeting Transcript and Summary\nGenerated on: " ++ now ++ "\n" ++ eqLine
          ++ "\n\nORIGINAL TRANSCRIPT:\n" ++ dashLine ++ "\n").data
        ++ T.data
        ++ ("\n\nAI-GENERATED SUMMARY:\n" ++ dashLine ++ "\n").data
        ++ S.data ++ ("\n" : String).data ∧
    (∃ a b, a ++ T.data ++ b = (download_output now T S fn).data) ∧
    (∃ a b, a ++ S.data ++ b = (download_output now T S fn).data) := by
  refine ⟨?_, ?_, ?_⟩
  · simp [download_output, strDataAppend, List.append_assoc]
  · exact ⟨("Meeting Transcript and Summary\nGenerated on: " ++ now ++ "\n" ++ eqLine
        ++ "\n\nORIGINAL TRANSCRIPT:\n" ++ dashLine ++ "\n").data,
      ("\n\nAI-GENERATED SUMMARY:\n" ++ dashLine ++ "\n" ++ S ++ "\n").data,
      by simp [download_output, strDataAppend, List.append_assoc]⟩
  · exact ⟨("Meeting Transcript and Summary\nGenerated on: " ++ now ++ "\n" ++ eqLine
        ++ "\n\nORIGINAL TRANSCRIPT:\n" ++ dashLine ++ "\n" ++ T
        ++ "\n\nAI-GENERATED SUMMARY:\n" ++ dashLine ++ "\n").data,
      ("\n" : String).data,
      by simp [download_output, strDataAppend, List.append_assoc]⟩

/-- C8 counterexample: with transcript x and summary x, the report
contains the transcript text twice, not exactly once, so the
exactly-once part of the claim fails. -/
theorem report_occurrence_not_unique :
    countOccur "x".data (download_output "T0" "x" "x" "f").data = 2 ∧
    countOccur "x".data (download_output "T0" "x" "x" "f").data ≠ 1 := by
  exact ⟨by decide, by decide⟩

/-- C9 amended: the report header contains the generation timestamp
verbatim, but not the source identifier: the filename argument is ignored
and the output is independent of it. -/
theorem report_header_contains_timestamp_not_source (now t s f1 f2 : String) :
    download_output now t s f1 = download_output now t s f2 ∧
    (∃ a b, a ++ now.data ++ b = (download_output now t s f1).data) := by
  refine ⟨rfl, ?_⟩
  exact ⟨("Meeting Transcript and Summary\nGenerated on: " : String).data,
    ("\n" ++ eqLine ++ "\n\nORIGINAL TRANSCRIPT:\n" ++ dashLine ++ "\n" ++ t
      ++ "\n\nAI-GENERATED SUMMARY:\n" ++ dashLine ++ "\n" ++ s ++ "\n").data,
    by simp [download_output, strDataAppend, List.append_assoc]⟩

/-- C9 counterexample: a filename that occurs nowhere else is absent from
the assembled report, so the header does not contain the source
identifier; the output is byte-identical under a different filename. -/
theorem report_header_omits_source_identifier :
    countOccur "zqzq".data (download_output "2024-01-01 00:00:00" "t" "s" "zqzq").data = 0 ∧
    download_output "2024-01-01 00:00:00" "t" "s" "zqzq"
      = download_output "2024-01-01 00:00:00" "t" "s" "other" :=
  ⟨by decide, rfl⟩

end MeetingSummarizer
